import Mathlib

/-!
Verification of the surferrr browser-automation facade.

The development shallowly embeds the two source files of the repository:

* `src/surferrr/base/base_browser.py` — the abstract session controller
  (`BaseBrowser`): the with-statement lifecycle protocol, the bounded-retry
  element lookup `get_element`, and the interaction helpers `type_text`,
  `submit`, `click`, `get_text`.
* `src/surferrr/browser/chrome.py` — the Chrome variant: constructor-time
  argument handling (the `--headless` flag) and the post-launch user-agent
  fixup issued through `Network.setUserAgentOverride`.

The external selenium driver is modelled as an oracle: a function giving the
outcome of the i-th `find_element_by_xpath` call for a locator, plus a text
reader for elements.  Machine-visible effects (find attempts, sleeps, CDP
commands, element actions, heap mutation of argument lists) are recorded in
explicit traces so that the spec's counting claims can be stated.
-/

namespace Surferrr

/-- Opaque reference to a located DOM element (selenium `WebElement`). -/
abbrev Elem := Nat

/-- Diagnostic payload of selenium's `NoSuchElementException`: the `msg`,
`screen` and `stacktrace` fields, each optional (the bare constructor
`NoSuchElementException()` leaves all three unset). -/
structure NoSuchElementException where
  msg : Option String
  screen : Option String
  stacktrace : Option String
deriving DecidableEq, Repr

/-- The payload-free `NoSuchElementException()` raised when the retry loop
finishes with no captured error. -/
def genericNoSuchElement : NoSuchElementException := ⟨none, none, none⟩

namespace BaseBrowser

/-- Class-level default retry budget (`BaseBrowser.max_wait = 3`). -/
def max_wait : Nat := 3

/-- Class-level sleep duration between attempts (`BaseBrowser.wait_interval = 1`). -/
def wait_interval : Nat := 1

end BaseBrowser

/-- The default substitution at the top of `get_element`:
`if not max_wait: max_wait = self.max_wait`.  Python falsiness replaces both
`None` and an explicit `0` by the class default `3`; every other integer,
including negative ones, is kept. -/
def effectiveMaxWait (maxWait : Option Int) : Int :=
  match maxWait with
  | none => (BaseBrowser.max_wait : Int)
  | some m => if m = 0 then (BaseBrowser.max_wait : Int) else m

/-- Observable outcome of the `for _ in range(max_wait + 1)` retry loop of
`get_element`: how many find attempts ran, the list of sleep durations
performed (one `time.sleep(self.wait_interval)` per failed attempt), the
element found by a `break`, and the `last_err` variable at loop end. -/
structure LoopOut where
  attempts : Nat
  sleeps : List Nat
  found : Option Elem
  last_err : Option NoSuchElementException
deriving Repr

/-- The retry loop body of `BaseBrowser.get_element`, recursing on the
remaining iteration count `fuel`; `find i` is the outcome of the i-th
`find_element_by_xpath` call, `le` the current `last_err`.  A successful call
breaks out of the loop; a failing call records the error, sleeps
`wait_interval`, and continues. -/
def retryLoop (find : Nat → Except NoSuchElementException Elem) :
    Nat → Nat → Option NoSuchElementException → LoopOut
  | _, 0, le => ⟨0, [], none, le⟩
  | i, fuel + 1, le =>
    match find i with
    | .ok e => ⟨1, [], some e, le⟩
    | .error err =>
      let r := retryLoop find (i + 1) fuel (some err)
      ⟨r.attempts + 1, BaseBrowser.wait_interval :: r.sleeps, r.found, r.last_err⟩

/-- External selenium driver, as an oracle: `find xpath i` is the outcome of
the i-th `find_element_by_xpath(xpath)` call, `text e` the `.text` of an
element. -/
structure Driver where
  find : String → Nat → Except NoSuchElementException Elem
  text : Elem → String

/-- Observable result of one `get_element` call: the attempt count, the
sleeps performed, and the returned element or raised error. -/
structure GEResult where
  attempts : Nat
  sleeps : List Nat
  result : Except NoSuchElementException Elem
deriving Repr

/-- `BaseBrowser.get_element(xpath, max_wait)`: substitute the default on a
falsy `max_wait`, run the retry loop `max_wait + 1` times, return the found
element, or re-raise the last captured not-found error with its `msg`,
`screen` and `stacktrace` fields (a fresh generic error when none was
captured). -/
def BaseBrowser.get_element (d : Driver) (xpath : String)
    (maxWait : Option Int) : GEResult :=
  let mw := effectiveMaxWait maxWait
  let r := retryLoop (d.find xpath) 0 (mw + 1).toNat none
  match r.found with
  | some e => ⟨r.attempts, r.sleeps, .ok e⟩
  | none =>
    match r.last_err with
    | some le => ⟨r.attempts, r.sleeps, .error ⟨le.msg, le.screen, le.stacktrace⟩⟩
    | none => ⟨r.attempts, r.sleeps, .error genericNoSuchElement⟩

/-- Driver-level operations issued by the interaction helpers: a `resolve`
records one internal `get_element(xpath, max_wait=max_wait)` call with the
arguments it received; the others are the element actions delegated to. -/
inductive Op where
  | resolve (xpath : String) (maxWait : Option Int)
  | send_keys (e : Elem) (keys : String)
  | submit (e : Elem)
  | click (e : Elem)
  | read_text (e : Elem)
deriving DecidableEq, Repr

/-- `BaseBrowser.type_text(xpath, keys, max_wait)`: resolve the element via
`get_element`, send the keystrokes to it, return it.  A lookup failure
propagates before any element action. -/
def BaseBrowser.type_text (d : Driver) (xpath keys : String)
    (maxWait : Option Int) : List Op × Except NoSuchElementException Elem :=
  match (BaseBrowser.get_element d xpath maxWait).result with
  | .error err => ([Op.resolve xpath maxWait], .error err)
  | .ok e => ([Op.resolve xpath maxWait, Op.send_keys e keys], .ok e)

/-- `BaseBrowser.submit(xpath, max_wait)`: resolve the element via
`get_element`, trigger form submission on it, return it. -/
def BaseBrowser.submit (d : Driver) (xpath : String)
    (maxWait : Option Int) : List Op × Except NoSuchElementException Elem :=
  match (BaseBrowser.get_element d xpath maxWait).result with
  | .error err => ([Op.resolve xpath maxWait], .error err)
  | .ok e => ([Op.resolve xpath maxWait, Op.submit e], .ok e)

/-- `BaseBrowser.click(xpath, max_wait)`: resolve the element via
`get_element`, click it, return it. -/
def BaseBrowser.click (d : Driver) (xpath : String)
    (maxWait : Option Int) : List Op × Except NoSuchElementException Elem :=
  match (BaseBrowser.get_element d xpath maxWait).result with
  | .error err => ([Op.resolve xpath maxWait], .error err)
  | .ok e => ([Op.resolve xpath maxWait, Op.click e], .ok e)

/-- `BaseBrowser.get_text(xpath, max_wait)`: resolve the element via
`get_element` and return its `.text`. -/
def BaseBrowser.get_text (d : Driver) (xpath : String)
    (maxWait : Option Int) : List Op × Except NoSuchElementException String :=
  match (BaseBrowser.get_element d xpath maxWait).result with
  | .error err => ([Op.resolve xpath maxWait], .error err)
  | .ok e => ([Op.resolve xpath maxWait, Op.read_text e], .ok (d.text e))

/-! ## The with-statement lifecycle protocol (`__enter__` / `__exit__`) -/

/-- Lifecycle events observable at the driver boundary. -/
inductive LcEvent where
  | launch
  | shutdown
deriving DecidableEq, Repr

/-- A session controller instance (identity is all the protocol needs). -/
structure Browser where
  id : Nat
deriving DecidableEq, Repr

/-- `BaseBrowser.__enter__`: calls `self.launch()` and returns `self`. -/
def BaseBrowser.enter (b : Browser) : List LcEvent × Browser :=
  ([LcEvent.launch], b)

/-- `BaseBrowser.__exit__`: calls `self.shutdown()` whatever the exception
information is; it returns `None`, so an in-flight exception propagates. -/
def BaseBrowser.exit (_ : Browser) : List LcEvent :=
  [LcEvent.shutdown]

/-- Python's with-statement protocol applied to a `BaseBrowser`:
`__enter__` runs first and its value is bound in the body; whether the body
finishes normally (`Except.ok`) or raises (`Except.error`), `__exit__` runs
exactly once afterwards, and since it returns a falsy value the body's
outcome is what the whole statement produces. -/
def withStmt (b : Browser)
    (body : Browser → List LcEvent × Except String Unit) :
    List LcEvent × Except String Unit :=
  let (t1, x) := BaseBrowser.enter b
  let (t2, r) := body x
  (t1 ++ t2 ++ BaseBrowser.exit b, r)

/-! ## The Chrome variant -/

/-- `chrome.ARGUMENT_HEADLESS`. -/
def ARGUMENT_HEADLESS : String := "--headless"

/-- The characters of the `'Headless'` marker removed by `Chrome.launch`. -/
def headlessMarker : List Char := String.toList "Headless"

/-- Worker for `stripHeadlessMarker`, structurally recursive on a fuel that
bounds the number of characters still to be consumed; every step consumes at
least one character, so fuel equal to the list length is exact. -/
def stripHeadlessMarkerAux : Nat → List Char → List Char
  | 0, _ => []
  | _ + 1, [] => []
  | fuel + 1, c :: cs =>
    if headlessMarker.isPrefixOf (c :: cs) then
      stripHeadlessMarkerAux fuel (List.drop (headlessMarker.length - 1) cs)
    else
      c :: stripHeadlessMarkerAux fuel cs

/-- Python's `s.replace('Headless', '')` on the character list of `s`:
remove every non-overlapping occurrence of the marker in one left-to-right
scan, never re-examining characters emitted before the current position. -/
def stripHeadlessMarker (l : List Char) : List Char :=
  stripHeadlessMarkerAux l.length l

/-- Whether a character list contains the `'Headless'` marker as a
contiguous substring. -/
def containsMarker : List Char → Bool
  | [] => false
  | c :: cs => headlessMarker.isPrefixOf (c :: cs) || containsMarker cs

/-- Driver-side state after `Chrome.launch`: the launch arguments handed to
the options object, the user-agent the live driver reports, and the log of
`execute_cdp_cmd` calls, each carried with the user-agent it installs. -/
structure ChromeSession where
  arguments : List String
  userAgent : String
  cdpCalls : List (String × String)
deriving Repr

/-- `Chrome.launch()`: build options from the stored arguments and start the
driver; `rawUA` is the user-agent the freshly started driver reports.  When
`self.headless`, query the user-agent, delete the `'Headless'` marker from
it, and install the result through the
`execute_cdp_cmd('Network.setUserAgentOverride', ...)` call, after which the
driver reports the overridden string. -/
def Chrome.launch (headless : Bool) (arguments : List String)
    (rawUA : String) : ChromeSession :=
  let s0 : ChromeSession := ⟨arguments, rawUA, []⟩
  if headless then
    let ua := String.mk (stripHeadlessMarker rawUA.toList)
    { s0 with
      userAgent := ua,
      cdpCalls := s0.cdpCalls ++ [("Network.setUserAgentOverride", ua)] }
  else
    s0

/-! ## Constructor-time aliasing of the arguments list

Python lists are heap objects passed by reference; `BaseBrowser.__init__`
stores `arguments if arguments else []` into `self.arguments`, so a truthy
(non-empty) caller list is aliased while `None` or an empty list is replaced
by a fresh list.  `Chrome.__init__` then appends `'--headless'` in place to
whichever object `self.arguments` refers to.  The heap is modelled as a
store of list objects addressed by allocation order. -/

abbrev Addr := Nat

/-- Heap of Python list objects holding strings: a store from addresses to
list contents plus the next fresh address. -/
structure Heap where
  store : Addr → List String
  next : Addr

/-- Read the list object at an address. -/
def Heap.get (h : Heap) (a : Addr) : List String := h.store a

/-- Mutate the list object at an address in place. -/
def Heap.set (h : Heap) (a : Addr) (v : List String) : Heap :=
  ⟨fun x => if x = a then v else h.store x, h.next⟩

/-- Allocate a fresh list object, returning the new heap and its address. -/
def Heap.alloc (h : Heap) (v : List String) : Heap × Addr :=
  (⟨fun x => if x = h.next then v else h.store x, h.next + 1⟩, h.next)

/-- `BaseBrowser.__init__`: `self.arguments = arguments if arguments else []`.
A supplied non-empty list is kept by reference; `None` or an empty list
yields a freshly allocated empty list.  Returns the heap and the address
`self.arguments` holds. -/
def BaseBrowser.init (h : Heap) (argumentsRef : Option Addr) : Heap × Addr :=
  match argumentsRef with
  | some a => if h.get a ≠ [] then (h, a) else h.alloc []
  | none => h.alloc []

/-- `Chrome.__init__`: delegate to `BaseBrowser.__init__` for the arguments
list, then, when `headless`, append `ARGUMENT_HEADLESS` in place to the
object `self.arguments` refers to.  Returns the heap and the address of
`self.arguments`. -/
def Chrome.init (h : Heap) (headless : Bool) (argumentsRef : Option Addr) :
    Heap × Addr :=
  let p := BaseBrowser.init h argumentsRef
  if headless then
    ((p.1).set p.2 ((p.1).get p.2 ++ [ARGUMENT_HEADLESS]), p.2)
  else
    p

/-! ## Concrete drivers and heaps used in counterexamples and witnesses -/

/-- An attempt-indexed not-found error, so runs can observe which attempt's
error is re-raised. -/
def sampleErrAt (i : Nat) : NoSuchElementException :=
  ⟨some "no such element", none, some (toString i)⟩

/-- A driver whose locator never resolves; attempt `i` fails with
`sampleErrAt i`. -/
def neverFindDriver : Driver :=
  ⟨fun _ i => .error (sampleErrAt i), fun _ => ""⟩

/-- A driver that finds element `7` on the first attempt. -/
def immediateDriver : Driver :=
  ⟨fun _ _ => .ok 7, fun _ => "text7"⟩

/-- A with-statement body that raises. -/
def raisingBody : Browser → List LcEvent × Except String Unit :=
  fun _ => ([], .error "boom")

/-- A heap whose address 0 holds the caller's empty arguments list. -/
def emptyArgsHeap : Heap := ⟨fun _ => [], 1⟩

/-- A heap whose address 0 holds the caller's non-empty arguments list. -/
def oneArgHeap : Heap := ⟨fun a => if a = 0 then ["--foo"] else [], 1⟩

/-! ## Lemmas about the retry loop -/

/-- The loop runs at most `fuel` find attempts. -/
theorem retryLoop_attempts_le (find : Nat → Except NoSuchElementException Elem) :
    ∀ (fuel i : Nat) (le : Option NoSuchElementException),
      (retryLoop find i fuel le).attempts ≤ fuel := by
  intro fuel
  induction fuel with
  | zero => intro i le; simp [retryLoop]
  | succ n ih =>
    intro i le
    cases hf : find i with
    | ok e => simp [retryLoop, hf]
    | error err =>
      simpa [retryLoop, hf] using ih (i + 1) (some err)

/-- The loop sleeps at most `fuel` times. -/
theorem retryLoop_sleeps_len_le (find : Nat → Except NoSuchElementException Elem) :
    ∀ (fuel i : Nat) (le : Option NoSuchElementException),
      (retryLoop find i fuel le).sleeps.length ≤ fuel := by
  intro fuel
  induction fuel with
  | zero => intro i le; simp [retryLoop]
  | succ n ih =>
    intro i le
    cases hf : find i with
    | ok e => simp [retryLoop, hf]
    | error err =>
      simpa [retryLoop, hf] using ih (i + 1) (some err)

/-- Every sleep the loop performs has the fixed duration `wait_interval`. -/
theorem retryLoop_sleeps_fixed (find : Nat → Except NoSuchElementException Elem) :
    ∀ (fuel i : Nat) (le : Option NoSuchElementException) (s : Nat),
      s ∈ (retryLoop find i fuel le).sleeps → s = BaseBrowser.wait_interval := by
  intro fuel
  induction fuel with
  | zero => intro i le s hs; simp [retryLoop] at hs
  | succ n ih =>
    intro i le s hs
    cases hf : find i with
    | ok e => simp [retryLoop, hf] at hs
    | error err =>
      simp only [retryLoop, hf] at hs
      rcases List.mem_cons.mp hs with h | h
      · exact h
      · exact ih (i + 1) (some err) s h

/-- Full characterization of the loop when every attempt fails: all `fuel`
attempts run, each is followed by a sleep, no element is found, and
`last_err` ends as the error of the final attempt (or the incoming value
when the loop body never runs). -/
theorem retryLoop_all_fail (find : Nat → Except NoSuchElementException Elem)
    (errOf : Nat → NoSuchElementException)
    (h : ∀ j, find j = .error (errOf j)) :
    ∀ (fuel i : Nat) (le : Option NoSuchElementException),
      retryLoop find i fuel le =
        ⟨fuel, List.replicate fuel BaseBrowser.wait_interval, none,
         if fuel = 0 then le else some (errOf (i + fuel - 1))⟩ := by
  intro fuel
  induction fuel with
  | zero => intro i le; simp [retryLoop]
  | succ n ih =>
    intro i le
    simp only [retryLoop, h i]
    rw [ih (i + 1) (some (errOf i))]
    simp only [List.replicate_succ, LoopOut.mk.injEq, Nat.succ_ne_zero,
      if_false, true_and]
    cases n with
    | zero => simp
    | succ m =>
      have hidx : i + 1 + (m + 1) - 1 = i + (m + 1 + 1) - 1 := by omega
      simp [hidx]

/-- Full characterization of the loop when the first `k` attempts fail and
attempt `k` (0-indexed) succeeds within the budget: exactly `k + 1` attempts
run, exactly `k` sleeps happen, and the found element is reported. -/
theorem retryLoop_found (find : Nat → Except NoSuchElementException Elem)
    (e : Elem) :
    ∀ (k i fuel : Nat) (le : Option NoSuchElementException),
      (∀ j, j < k → ∃ er, find (i + j) = .error er) →
      find (i + k) = .ok e →
      k < fuel →
      (retryLoop find i fuel le).found = some e ∧
      (retryLoop find i fuel le).attempts = k + 1 ∧
      (retryLoop find i fuel le).sleeps =
        List.replicate k BaseBrowser.wait_interval := by
  intro k
  induction k with
  | zero =>
    intro i fuel le _ hok hlt
    cases fuel with
    | zero => omega
    | succ f =>
      have hok' : find i = .ok e := by simpa using hok
      simp [retryLoop, hok']
  | succ k ih =>
    intro i fuel le hfail hok hlt
    cases fuel with
    | zero => omega
    | succ f =>
      obtain ⟨er, her⟩ := hfail 0 (Nat.succ_pos k)
      have her' : find i = .error er := by simpa using her
      have hfail' : ∀ j, j < k → ∃ er, find (i + 1 + j) = .error er := by
        intro j hj
        obtain ⟨er2, her2⟩ := hfail (j + 1) (by omega)
        exact ⟨er2, by rw [show i + 1 + j = i + (j + 1) by omega]; exact her2⟩
      have hok' : find (i + 1 + k) = .ok e := by
        rw [show i + 1 + k = i + (k + 1) by omega]; exact hok
      have hr := ih (i + 1) f (some er) hfail' hok' (by omega)
      simp only [retryLoop, her']
      exact ⟨hr.1, by simp [hr.2.1], by simp [hr.2.2, List.replicate_succ]⟩

/-- Substituting a non-falsy budget: any non-zero integer is kept. -/
theorem effectiveMaxWait_some (n : Int) (hn : n ≠ 0) :
    effectiveMaxWait (some n) = n := by
  simp [effectiveMaxWait, hn]

/-! ## Projection lemmas for `get_element` -/

/-- `get_element` reports the loop's attempt count unchanged. -/
theorem get_element_attempts_eq (d : Driver) (xpath : String) (mw : Option Int) :
    (BaseBrowser.get_element d xpath mw).attempts =
      (retryLoop (d.find xpath) 0 ((effectiveMaxWait mw + 1).toNat) none).attempts := by
  simp only [BaseBrowser.get_element]
  split
  · rfl
  split
  · rfl
  · rfl

/-- `get_element` reports the loop's sleeps unchanged. -/
theorem get_element_sleeps_eq (d : Driver) (xpath : String) (mw : Option Int) :
    (BaseBrowser.get_element d xpath mw).sleeps =
      (retryLoop (d.find xpath) 0 ((effectiveMaxWait mw + 1).toNat) none).sleeps := by
  simp only [BaseBrowser.get_element]
  split
  · rfl
  split
  · rfl
  · rfl

/-- When the loop breaks with an element, `get_element` returns it. -/
theorem get_element_result_of_found (d : Driver) (xpath : String)
    (mw : Option Int) (e : Elem)
    (h : (retryLoop (d.find xpath) 0 ((effectiveMaxWait mw + 1).toNat) none).found
        = some e) :
    (BaseBrowser.get_element d xpath mw).result = .ok e := by
  simp only [BaseBrowser.get_element, h]

/-- When the loop ends with a captured error and no element, `get_element`
raises a fresh not-found error carrying that error's three fields. -/
theorem get_element_result_of_last_err (d : Driver) (xpath : String)
    (mw : Option Int) (le : NoSuchElementException)
    (hf : (retryLoop (d.find xpath) 0 ((effectiveMaxWait mw + 1).toNat) none).found
        = none)
    (hl : (retryLoop (d.find xpath) 0 ((effectiveMaxWait mw + 1).toNat) none).last_err
        = some le) :
    (BaseBrowser.get_element d xpath mw).result =
      .error ⟨le.msg, le.screen, le.stacktrace⟩ := by
  simp only [BaseBrowser.get_element, hf, hl]

/-- When the loop ends with neither element nor captured error,
`get_element` raises the generic payload-free error. -/
theorem get_element_result_of_no_err (d : Driver) (xpath : String)
    (mw : Option Int)
    (hf : (retryLoop (d.find xpath) 0 ((effectiveMaxWait mw + 1).toNat) none).found
        = none)
    (hl : (retryLoop (d.find xpath) 0 ((effectiveMaxWait mw + 1).toNat) none).last_err
        = none) :
    (BaseBrowser.get_element d xpath mw).result = .error genericNoSuchElement := by
  simp only [BaseBrowser.get_element, hf, hl]

/-! ## Claims -/

/-- C1, counterexample: with the default budget (`max_wait` omitted, class
default 3), a locator that never resolves triggers exactly 4 find attempts
but also 4 sleeps of 1 time unit — `time.sleep` sits inside the `except`
block and therefore also runs after the final failed attempt — refuting the
claimed "3 sleeps". -/
theorem claim_C1_counterexample :
    ¬ ((BaseBrowser.get_element neverFindDriver "//a" none).sleeps.length = 3) ∧
    (BaseBrowser.get_element neverFindDriver "//a" none).sleeps = [1, 1, 1, 1] ∧
    (BaseBrowser.get_element neverFindDriver "//a" none).attempts = 4 := by
  refine ⟨by decide, by decide, by decide⟩

/-- C1, amended: for every budget `n ≥ 1` passed as `max_wait` (an explicit
`0` is falsy and replaced by the default, see C8), the lookup performs at
most `n + 1` find attempts and at most `n + 1` sleeps — one after each
failed attempt, including the last — each sleep the fixed `wait_interval`;
with the default budget 3, a locator that never resolves produces exactly 4
attempts and 4 sleeps of 1 time unit before the not-found error is raised. -/
theorem claim_C1_amended (d : Driver) (xpath : String) (n : Int)
    (hn : 1 ≤ n) :
    (BaseBrowser.get_element d xpath (some n)).attempts ≤ (n + 1).toNat ∧
    (BaseBrowser.get_element d xpath (some n)).sleeps.length ≤ (n + 1).toNat ∧
    (∀ s ∈ (BaseBrowser.get_element d xpath (some n)).sleeps,
      s = BaseBrowser.wait_interval) ∧
    ((∀ j, ∃ er, d.find xpath j = .error er) →
      (BaseBrowser.get_element d xpath none).attempts = 4 ∧
      (BaseBrowser.get_element d xpath none).sleeps =
        List.replicate 4 BaseBrowser.wait_interval) := by
  have hne : n ≠ 0 := by omega
  have heff : effectiveMaxWait (some n) = n := effectiveMaxWait_some n hne
  have hfuel : (effectiveMaxWait (some n) + 1).toNat = (n + 1).toNat := by
    rw [heff]
  refine ⟨?_, ?_, ?_, ?_⟩
  · rw [get_element_attempts_eq, hfuel]
    exact retryLoop_attempts_le _ _ 0 none
  · rw [get_element_sleeps_eq, hfuel]
    exact retryLoop_sleeps_len_le _ _ 0 none
  · intro s hs
    rw [get_element_sleeps_eq] at hs
    exact retryLoop_sleeps_fixed _ _ 0 none s hs
  · intro hall
    choose errOf herrOf using hall
    have hloop := retryLoop_all_fail (d.find xpath) errOf herrOf
      ((effectiveMaxWait none + 1).toNat) 0 none
    constructor
    · rw [get_element_attempts_eq, hloop]
      rfl
    · rw [get_element_sleeps_eq, hloop]
      rfl

/-- C1, witness at the amendment: for the never-resolving driver with
budget 3, the attempt count stays within the bound 4. -/
theorem claim_C1_witness :
    (BaseBrowser.get_element neverFindDriver "//a" (some 3)).attempts
      ≤ ((3 : Int) + 1).toNat :=
  (claim_C1_amended neverFindDriver "//a" 3 (by norm_num)).1

/-- C2: when every one of the `n + 1` find attempts fails, the error
`get_element` finally raises is a not-found error equal to the last
attempt's underlying error — in particular it carries that error's `msg`,
`screen` and `stacktrace` fields. -/
theorem claim_C2_last_error (d : Driver) (xpath : String) (mw : Option Int)
    (errOf : Nat → NoSuchElementException)
    (hfail : ∀ j, d.find xpath j = .error (errOf j))
    (hw : 0 ≤ effectiveMaxWait mw) :
    (BaseBrowser.get_element d xpath mw).attempts =
      (effectiveMaxWait mw).toNat + 1 ∧
    (BaseBrowser.get_element d xpath mw).result =
      .error ⟨(errOf (effectiveMaxWait mw).toNat).msg,
              (errOf (effectiveMaxWait mw).toNat).screen,
              (errOf (effectiveMaxWait mw).toNat).stacktrace⟩ := by
  have hfuel : (effectiveMaxWait mw + 1).toNat = (effectiveMaxWait mw).toNat + 1 := by
    omega
  have hloop := retryLoop_all_fail (d.find xpath) errOf hfail
    ((effectiveMaxWait mw + 1).toNat) 0 none
  have hidx : 0 + (effectiveMaxWait mw + 1).toNat - 1 =
      (effectiveMaxWait mw).toNat := by omega
  constructor
  · rw [get_element_attempts_eq, hloop]
    simp [hfuel]
  · refine get_element_result_of_last_err d xpath mw _ ?_ ?_
    · rw [hloop]
    · rw [hloop]
      simp only [hfuel, Nat.succ_ne_zero, if_false, hidx]
      simp

/-- C2, witness: the never-resolving driver under the default budget raises
the error of attempt index 3 (the 4th and last attempt), fields preserved. -/
theorem claim_C2_witness :
    (BaseBrowser.get_element neverFindDriver "//a" none).result =
      .error ⟨(sampleErrAt 3).msg, (sampleErrAt 3).screen,
              (sampleErrAt 3).stacktrace⟩ :=
  (claim_C2_last_error neverFindDriver "//a" none sampleErrAt
    (fun _ => rfl) (by decide)).2

/-- C3: if the first `k` attempts fail and the driver's find succeeds on
attempt `k + 1 ≤ n + 1` (0-indexed `k` within the budget), the loop stops
there: exactly `k + 1` attempts and `k` sleeps happen, and the element found
on that attempt is the value `get_element` returns. -/
theorem claim_C3_found (d : Driver) (xpath : String) (mw : Option Int)
    (k : Nat) (e : Elem)
    (hfail : ∀ j, j < k → ∃ er, d.find xpath j = .error er)
    (hok : d.find xpath k = .ok e)
    (hk : k < (effectiveMaxWait mw + 1).toNat) :
    (BaseBrowser.get_element d xpath mw).result = .ok e ∧
    (BaseBrowser.get_element d xpath mw).attempts = k + 1 ∧
    (BaseBrowser.get_element d xpath mw).sleeps =
      List.replicate k BaseBrowser.wait_interval := by
  have hfail0 : ∀ j, j < k → ∃ er, d.find xpath (0 + j) = .error er := by
    intro j hj
    simpa using hfail j hj
  have hok0 : d.find xpath (0 + k) = .ok e := by simpa using hok
  have hloop := retryLoop_found (d.find xpath) e k 0
    ((effectiveMaxWait mw + 1).toNat) none hfail0 hok0 hk
  refine ⟨get_element_result_of_found d xpath mw e hloop.1, ?_, ?_⟩
  · rw [get_element_attempts_eq]
    exact hloop.2.1
  · rw [get_element_sleeps_eq]
    exact hloop.2.2

/-- C3, witness: a driver that resolves on the very first attempt returns
that element with one attempt and no sleep. -/
theorem claim_C3_witness :
    (BaseBrowser.get_element immediateDriver "//a" none).result = .ok 7 :=
  (claim_C3_found immediateDriver "//a" none 0 7
    (fun j hj => absurd hj (Nat.not_lt_zero j)) rfl (by decide)).1

/-- C4, counterexample: the claim's final clause fails for an adversarial
raw user-agent.  `replace('Headless', '')` deletes occurrences in a single
left-to-right scan and never re-examines the spliced result, so the raw
user-agent `"HeadHeadlessless"` is rewritten to exactly `"Headless"`: the
user-agent reported after a headless launch still contains `'Headless'`. -/
theorem claim_C4_counterexample :
    (Chrome.launch true [] "HeadHeadlessless").userAgent = "Headless" ∧
    containsMarker (Chrome.launch true [] "HeadHeadlessless").userAgent.toList
      = true := by
  refine ⟨by decide, by decide⟩

/-- C4, amended: for the Chrome variant, `Network.setUserAgentOverride` is
invoked exactly once during `launch()` when headless mode is enabled and
never when it is disabled, and the user-agent it installs (and the driver
thereafter reports) is the driver's reported user-agent with the
non-overlapping occurrences of `'Headless'` deleted in one left-to-right
pass; when that deletion leaves no occurrence of the marker — as for the
standard `HeadlessChrome` user-agent — the reported user-agent after a
headless launch does not contain `'Headless'`. -/
theorem claim_C4_amended (arguments : List String) (rawUA : String) :
    (Chrome.launch true arguments rawUA).cdpCalls =
      [("Network.setUserAgentOverride",
        String.mk (stripHeadlessMarker rawUA.toList))] ∧
    (Chrome.launch true arguments rawUA).userAgent =
      String.mk (stripHeadlessMarker rawUA.toList) ∧
    (Chrome.launch false arguments rawUA).cdpCalls = [] ∧
    (Chrome.launch false arguments rawUA).userAgent = rawUA ∧
    containsMarker (stripHeadlessMarker (String.toList
      "Mozilla/5.0 (X11; Linux x86_64) HeadlessChrome/88.0.4324.0 Safari/537.36"))
      = false := by
  refine ⟨rfl, rfl, rfl, rfl, by decide⟩

/-- C5: scoped acquisition on a session controller: entering the scope calls
`launch()` and returns the controller itself, and for any exit of the scope
— a body that returns normally or one that raises — `shutdown()` is invoked
exactly once, with the body's outcome propagated. -/
theorem claim_C5_scoped (b : Browser)
    (body : Browser → List LcEvent × Except String Unit)
    (hbody : (body b).1.count LcEvent.shutdown = 0) :
    (BaseBrowser.enter b).2 = b ∧
    (BaseBrowser.enter b).1.count LcEvent.launch = 1 ∧
    (withStmt b body).1.count LcEvent.shutdown = 1 ∧
    (withStmt b body).2 = (body b).2 := by
  rcases hb : body b with ⟨t2, r⟩
  refine ⟨rfl, rfl, ?_, ?_⟩
  · simp [withStmt, BaseBrowser.enter, BaseBrowser.exit, hb,
      List.count_append, hbody ▸ congrArg (List.count LcEvent.shutdown)
        (congrArg Prod.fst hb)]
  · simp [withStmt, BaseBrowser.enter, hb]

/-- C5, witness: a body that raises still sees exactly one `shutdown`. -/
theorem claim_C5_witness :
    (withStmt ⟨0⟩ raisingBody).1.count LcEvent.shutdown = 1 :=
  (claim_C5_scoped ⟨0⟩ raisingBody rfl).2.2.1

/-- C6: each of `type_text`, `click`, `submit` and `get_text` performs
exactly one internal `get_element` resolution, with the same locator and
wait budget it was given, before delegating to the corresponding element
action; `type_text`, `click` and `submit` return the resolved element and
`get_text` returns the element's text. -/
theorem claim_C6_delegation (d : Driver) (xpath keys : String)
    (mw : Option Int) (e : Elem)
    (h : (BaseBrowser.get_element d xpath mw).result = .ok e) :
    BaseBrowser.type_text d xpath keys mw =
      ([Op.resolve xpath mw, Op.send_keys e keys], .ok e) ∧
    BaseBrowser.submit d xpath mw =
      ([Op.resolve xpath mw, Op.submit e], .ok e) ∧
    BaseBrowser.click d xpath mw =
      ([Op.resolve xpath mw, Op.click e], .ok e) ∧
    BaseBrowser.get_text d xpath mw =
      ([Op.resolve xpath mw, Op.read_text e], .ok (d.text e)) := by
  refine ⟨?_, ?_, ?_, ?_⟩ <;>
    simp [BaseBrowser.type_text, BaseBrowser.submit, BaseBrowser.click,
      BaseBrowser.get_text, h]

/-- C6, witness: with an immediately-resolving driver, `type_text` logs one
resolution followed by the keystroke delivery and returns the element. -/
theorem claim_C6_witness :
    BaseBrowser.type_text immediateDriver "//a" "hello" none =
      ([Op.resolve "//a" none, Op.send_keys 7 "hello"], .ok 7) :=
  (claim_C6_delegation immediateDriver "//a" "hello" none 7 rfl).1

/-- C7: if the retry loop of `get_element` ends with no element found and no
underlying not-found error ever captured, a generic payload-free not-found
error is raised rather than no error at all. -/
theorem claim_C7_generic (d : Driver) (xpath : String) (mw : Option Int)
    (hfound :
      (retryLoop (d.find xpath) 0 ((effectiveMaxWait mw + 1).toNat) none).found
        = none)
    (herr :
      (retryLoop (d.find xpath) 0 ((effectiveMaxWait mw + 1).toNat) none).last_err
        = none) :
    (BaseBrowser.get_element d xpath mw).result = .error genericNoSuchElement :=
  get_element_result_of_no_err d xpath mw hfound herr

/-- C7, witness: with an explicit negative budget the loop body never runs,
so no error is captured and the generic error is raised. -/
theorem claim_C7_witness :
    (BaseBrowser.get_element neverFindDriver "//a" (some (-1))).result
      = .error genericNoSuchElement :=
  claim_C7_generic neverFindDriver "//a" (some (-1)) rfl rfl

/-- C8: passing `max_wait = 0` explicitly does not request a single no-wait
attempt — the default substitution is a Python falsiness test, so an
explicit `0` (like `None`) becomes the class default `3`: the lookup behaves
exactly as with the omitted budget, the helpers return the same outcome, and
a never-resolving locator still sees 4 attempts. -/
theorem claim_C8_zero_budget (d : Driver) (xpath keys : String) :
    effectiveMaxWait (some 0) = effectiveMaxWait none ∧
    BaseBrowser.get_element d xpath (some 0) =
      BaseBrowser.get_element d xpath none ∧
    (BaseBrowser.type_text d xpath keys (some 0)).2 =
      (BaseBrowser.type_text d xpath keys none).2 ∧
    ((∀ j, ∃ er, d.find xpath j = .error er) →
      (BaseBrowser.get_element d xpath (some 0)).attempts = 4) := by
  have h2 : BaseBrowser.get_element d xpath (some 0) =
      BaseBrowser.get_element d xpath none := rfl
  refine ⟨rfl, h2, ?_, ?_⟩
  · simp only [BaseBrowser.type_text, h2]
    cases hres : (BaseBrowser.get_element d xpath none).result <;>
      simp [hres]
  · intro hall
    choose errOf herrOf using hall
    have hloop := retryLoop_all_fail (d.find xpath) errOf herrOf
      ((effectiveMaxWait (some 0) + 1).toNat) 0 none
    rw [get_element_attempts_eq, hloop]
    rfl

/-- C8, witness: the never-resolving driver with an explicit `0` budget
still runs 4 find attempts. -/
theorem claim_C8_witness :
    (BaseBrowser.get_element neverFindDriver "//a" (some 0)).attempts = 4 :=
  (claim_C8_zero_budget neverFindDriver "//a" "k").2.2.2
    (fun j => ⟨sampleErrAt j, rfl⟩)

/-- C9, counterexample: the claim fails for a caller-supplied empty list.
`arguments if arguments else []` is a falsiness test, so an empty list is
replaced by a freshly allocated list; `'--headless'` is appended to the
fresh object and the caller's empty list is left unmodified, not mutated to
`['--headless']`. -/
theorem claim_C9_counterexample :
    ¬ ((Chrome.init emptyArgsHeap true (some 0)).1.get 0 =
        emptyArgsHeap.get 0 ++ [ARGUMENT_HEADLESS]) ∧
    (Chrome.init emptyArgsHeap true (some 0)).1.get 0 = [] := by
  refine ⟨by decide, by decide⟩

/-- C9, amended: constructing a Chrome variant with `headless=True` and a
caller-supplied **non-empty** arguments list appends `'--headless'` to that
very list object in place; a caller-supplied **empty** list is falsy, so it
is replaced by a freshly allocated list which receives `'--headless'`, and
the caller's empty list is left unchanged; with `headless=False` the
supplied list is never modified by construction. -/
theorem claim_C9_amended (h : Heap) (a : Addr) (ha : a < h.next) :
    (h.get a ≠ [] →
      (Chrome.init h true (some a)).2 = a ∧
      (Chrome.init h true (some a)).1.get a =
        h.get a ++ [ARGUMENT_HEADLESS]) ∧
    (h.get a = [] →
      (Chrome.init h true (some a)).1.get a = [] ∧
      (Chrome.init h true (some a)).2 = h.next ∧
      (Chrome.init h true (some a)).1.get (Chrome.init h true (some a)).2 =
        [ARGUMENT_HEADLESS]) ∧
    (Chrome.init h false (some a)).1.get a = h.get a := by
  have hne : a ≠ h.next := Nat.ne_of_lt ha
  refine ⟨?_, ?_, ?_⟩
  · intro hnonempty
    rw [show h.get a = h.store a from rfl] at hnonempty
    simp [Chrome.init, BaseBrowser.init, hnonempty, Heap.set, Heap.get]
  · intro hempty
    rw [show h.get a = h.store a from rfl] at hempty
    simp [Chrome.init, BaseBrowser.init, hempty, Heap.alloc, Heap.set,
      Heap.get, hne]
  · by_cases hc : h.store a = []
    · simp [Chrome.init, BaseBrowser.init, hc, Heap.alloc, Heap.get, hne]
    · simp [Chrome.init, BaseBrowser.init, hc, Heap.get]

/-- C9, witness at the amendment: a caller list holding one argument is
mutated in place and gains the trailing `'--headless'`. -/
theorem claim_C9_witness :
    (Chrome.init oneArgHeap true (some 0)).1.get 0 =
      ["--foo", "--headless"] :=
  ((claim_C9_amended oneArgHeap 0 (by decide)).1 (by decide)).2

/-- C10: calling `get_element` with an explicitly negative `max_wait` (for
example `-1`) performs zero find attempts against the driver and zero
sleeps, and raises the generic payload-free not-found error: the negative
value is truthy, so it survives the default substitution, and
`range(max_wait + 1)` is then empty. -/
theorem claim_C10_negative (d : Driver) (xpath : String) (n : Int)
    (hn : n < 0) :
    (BaseBrowser.get_element d xpath (some n)).attempts = 0 ∧
    (BaseBrowser.get_element d xpath (some n)).sleeps = [] ∧
    (BaseBrowser.get_element d xpath (some n)).result =
      .error genericNoSuchElement := by
  have hne : n ≠ 0 := by omega
  have hfuel : (effectiveMaxWait (some n) + 1).toNat = 0 := by
    rw [effectiveMaxWait_some n hne]
    omega
  have hloop : retryLoop (d.find xpath) 0
      ((effectiveMaxWait (some n) + 1).toNat) none = ⟨0, [], none, none⟩ := by
    rw [hfuel]
    rfl
  refine ⟨?_, ?_, ?_⟩
  · rw [get_element_attempts_eq, hloop]
  · rw [get_element_sleeps_eq, hloop]
  · refine get_element_result_of_no_err d xpath (some n) ?_ ?_ <;>
      rw [hloop]

/-- C10, witness: an explicit `-1` budget makes zero attempts. -/
theorem claim_C10_witness :
    (BaseBrowser.get_element neverFindDriver "//a" (some (-1))).attempts = 0 :=
  (claim_C10_negative neverFindDriver "//a" (-1) (by norm_num)).1

end Surferrr
